import Mathlib

/-!
Verification of the SYNAPSE Protocol Python SDK (synapse_sdk) against its
natural-language specification.

The development shallowly embeds the relevant parts of
src/sdk-python/synapse_sdk/client.py, constants.py and exceptions.py:

* Decimal display amounts are embedded as the structure Dec (sign flag plus
  digit lists), the image of a plain decimal string under Pythons
  Decimal(str(amount)) parse.
* SynapseClient._to_wei delegates to Web3.to_wei(Decimal(str(amount)), ether).
  The eth_utils implementation of to_wei returns 0 for a zero value, raises
  ValueError when the exact scaled value is negative or exceeds 2^256 - 1, and
  otherwise returns int(value * 10^18), truncating any sub-wei fraction toward
  zero (the localcontext precision used in its below-one branch always covers
  every significant digit of a parsed plain decimal string, so scaling is
  exact before the final int truncation).  to_wei below embeds exactly these
  semantics.
* SynapseClient._from_wei delegates to Web3.from_wei(amount, ether), which
  returns the integer 0 for 0, raises ValueError outside [1, 2^256 - 1], and
  otherwise divides exactly by 10^18 at precision 999 (always exact for a
  uint256 numerator).
* Keccak-256 and the ECDSA signing primitive are external cryptographic
  capabilities; they appear as explicit function parameters
  (keccak : List Nat -> List Nat, signMessage : List Nat -> List Nat) of every
  definition that uses them.  Byte strings are List Nat with entries below 256.
* Web3.solidity_keccak(types, values) abi-packs each value tightly (address:
  20 bytes, uint256: 32 bytes big-endian, bytes32: the 32 raw bytes) after
  validating it fits its declared type, then applies keccak; packValue /
  encodePacked / solidityKeccak embed this.
* Python exceptions raised by the SDK are embedded as the PyErr error type of
  an Except computation.
* The blockchain connection (w3.eth nonce/gas queries, raw transaction
  submission, receipt waiting) and the local account signer are embedded as
  the record Env of abstract functions; transactions built by _build_tx are
  the record Tx.
-/

namespace SynapseSdk

/-- Embedding of a Python exception raised by SDK code paths. -/
inductive PyErr where
  /-- Built-in ValueError with its message. -/
  | valueError (msg : String)
  /-- synapse_sdk.exceptions.TransactionFailedError: carries a message and
      the optional tx_hash attribute (exceptions.py lines 22-27). -/
  | transactionFailed (msg : String) (txHash : Option String)
  /-- Error raised by web3 abi packing when a value does not fit its
      declared solidity type. -/
  | packError
deriving DecidableEq, Repr

/-- Embedding of a plain decimal string (optional sign, integer digits,
    optional fractional digits), the accepted input of
    Decimal(str(amount)) in SynapseClient._to_wei (client.py line 163). -/
structure Dec where
  neg : Bool
  intPart : List Nat
  fracPart : List Nat

/-- Numeric value of a digit string (entries are decimal digits, below 10)
    read most-significant first. -/
def digitsToNat (ds : List Nat) : Nat :=
  ds.foldl (fun acc d => 10 * acc + d) 0

/-- Magnitude numerator of a decimal string: all digits read as one integer. -/
def Dec.num (d : Dec) : Nat := digitsToNat (d.intPart ++ d.fracPart)

/-- Number of fractional digits of the decimal string. -/
def Dec.fracLen (d : Dec) : Nat := d.fracPart.length

/-- Exact rational value denoted by the decimal string. -/
def Dec.value (d : Dec) : ℚ :=
  (if d.neg then -1 else 1) * (d.num : ℚ) / 10 ^ d.fracLen

/-- Largest uint256 value, the bound enforced by eth_utils to_wei/from_wei. -/
def UINT256MAX : Nat := 2 ^ 256 - 1

/-- Embedding of SynapseClient._to_wei (client.py lines 161-163):
    Web3.to_wei(Decimal(str(amount)), ether).  Per the eth_utils source: a
    zero value returns 0; otherwise the value is scaled by 10^18 exactly, a
    ValueError is raised when the scaled exact value is negative or above
    2^256 - 1, and the scaled value is returned truncated toward zero
    (int(result_value)), silently dropping any sub-wei fraction. -/
def to_wei (d : Dec) : Except PyErr Nat :=
  if d.num = 0 then .ok 0
  else if d.neg then
    .error (.valueError "Resulting wei value must be between 1 and 2**256 - 1")
  else if d.num * 10 ^ 18 > UINT256MAX * 10 ^ d.fracLen then
    .error (.valueError "Resulting wei value must be between 1 and 2**256 - 1")
  else .ok (d.num * 10 ^ 18 / 10 ^ d.fracLen)

/-- Embedding of SynapseClient._from_wei (client.py lines 165-167):
    Decimal(str(Web3.from_wei(amount, ether))).  Per the eth_utils source:
    0 returns 0, a value above 2^256 - 1 raises ValueError, and otherwise
    the result is the exact division by 10^18 (precision 999 is always
    sufficient for a uint256 numerator, so no rounding occurs). -/
def from_wei (n : Nat) : Except PyErr ℚ :=
  if n = 0 then .ok 0
  else if n > UINT256MAX then
    .error (.valueError "value must be between 1 and 2**256 - 1")
  else .ok ((n : ℚ) / 10 ^ 18)

/-- The decimal string 10.5 from the spec scenario. -/
def dec10p5 : Dec := ⟨false, [1, 0], [5]⟩

/-- The decimal string 0.0000000000000000005 : nineteen fractional digits,
    value half a wei. -/
def decHalfWei : Dec := ⟨false, [0], List.replicate 18 0 ++ [5]⟩

/-- The decimal string 1 followed by sixty zeros: a value whose wire form
    exceeds the uint256 range. -/
def decHuge : Dec := ⟨false, 1 :: List.replicate 60 0, []⟩

/-- The decimal string -1. -/
def decNeg1 : Dec := ⟨true, [1], []⟩

/-- The decimal string 2.25. -/
def dec2p25 : Dec := ⟨false, [2], [2, 5]⟩

/-- Big-endian byte encoding of n into w bytes, the tight abi packed form of
    fixed-width integer values. -/
def beBytes (w n : Nat) : List Nat :=
  (List.range w).map (fun i => n / 256 ^ (w - 1 - i) % 256)

/-- Typed value passed to Web3.solidity_keccak: the solidity types the SDK
    uses are address, uint256 and bytes32. -/
inductive SolValue where
  | address (n : Nat)
  | uint256 (n : Nat)
  | bytes32 (b : List Nat)

/-- Packed abi encoding of one typed value, after the web3 conformance check
    of the value against its declared type (a nonconforming value makes
    solidity_keccak raise; the exact exception class is irrelevant here and
    embedded as packError).  Addresses are uint160 values packed to 20
    bytes. -/
def packValue : SolValue → Except PyErr (List Nat)
  | .address n => if n < 2 ^ 160 then .ok (beBytes 20 n) else .error .packError
  | .uint256 n => if n < 2 ^ 256 then .ok (beBytes 32 n) else .error .packError
  | .bytes32 b => if b.length = 32 then .ok b else .error .packError

/-- Tight concatenation of the packed encodings of a list of typed values. -/
def encodePacked : List SolValue → Except PyErr (List Nat)
  | [] => .ok []
  | v :: vs => do
    let b ← packValue v
    let rest ← encodePacked vs
    pure (b ++ rest)

/-- Embedding of Web3.solidity_keccak(types, values): keccak over the tight
    packed concatenation of the values. -/
def solidityKeccak (keccak : List Nat → List Nat) (vs : List SolValue) :
    Except PyErr (List Nat) :=
  (encodePacked vs).map keccak

/-- Byte values of the ASCII encoding of a string (every string the SDK
    hashes is ASCII). -/
def asciiBytes (s : String) : List Nat := s.toList.map Char.toNat

/-- Lowercase hex rendering of one byte as two characters. -/
def hexByte (b : Nat) : List Char :=
  (fun digit => [digit (b / 16 % 16), digit (b % 16)])
    (fun n => if n < 10 then Char.ofNat (48 + n) else Char.ofNat (87 + n))

/-- Embedding of bytes.hex() in Python: lowercase hex string of a byte
    string. -/
def hexStr (bs : List Nat) : String := String.mk (bs.map hexByte).flatten

/-- Embedding of eth_account encode_defunct followed by the EIP-191 digest
    taken inside Account.sign_message: keccak of the byte 0x19, the version
    byte and header spelling Ethereum Signed Message and a newline, the
    decimal byte length of the message, and the message itself. -/
def eip191Digest (keccak : List Nat → List Nat) (msg : List Nat) : List Nat :=
  keccak (25 :: (asciiBytes "Ethereum Signed Message:\n" ++
    asciiBytes (toString msg.length) ++ msg))

/-- Embedding of SynapseClient.sign_channel_state (client.py lines 777-809):
    message_hash = Web3.solidity_keccak over (bytes32, uint256, uint256,
    uint256) applied to the decoded channel id, the two wire balances from
    _to_wei, and the nonce; then Account.sign_message over
    encode_defunct(message_hash).  The hex decoding of the channel id string
    argument is abstracted (channelId is the decoded byte string) and
    signMessage is the opaque ECDSA signing capability of the account,
    applied to the EIP-191 digest. -/
def sign_channel_state (keccak signMessage : List Nat → List Nat)
    (channelId : List Nat) (balance1 balance2 : Dec) (nonce : Nat) :
    Except PyErr (List Nat) := do
  let w1 ← to_wei balance1
  let w2 ← to_wei balance2
  let messageHash ← solidityKeccak keccak
    [.bytes32 channelId, .uint256 w1, .uint256 w2, .uint256 nonce]
  pure (signMessage (eip191Digest keccak messageHash))

/-- Embedding of the escrow id computation inlined in
    SynapseClient.create_escrow (client.py lines 364-370):
    Web3.keccak applied on top of Web3.solidity_keccak over (address,
    address, bytes32, uint256) of (self.address, recipient, payment_id,
    deadline). -/
def escrow_id (keccak : List Nat → List Nat) (sender recipient : Nat)
    (paymentId : List Nat) (deadline : Nat) : Except PyErr (List Nat) := do
  let inner ← solidityKeccak keccak
    [.address sender, .address recipient, .bytes32 paymentId, .uint256 deadline]
  pure (keccak inner)

/-- Embedding of the stream id computation inlined in
    SynapseClient.create_stream (client.py lines 422-429): Web3.keccak on top
    of Web3.solidity_keccak over (address, address, uint256, uint256) of
    (self.address, recipient, start_time, end_time). -/
def stream_id (keccak : List Nat → List Nat) (sender recipient : Nat)
    (startTime endTime : Nat) : Except PyErr (List Nat) := do
  let inner ← solidityKeccak keccak
    [.address sender, .address recipient, .uint256 startTime, .uint256 endTime]
  pure (keccak inner)

/-- Modelled from the spec: the getChannelId function of the on-chain
    PaymentChannel contract, which client.py lines 735-738 and 756-759 call
    remotely; the contract body is not part of src/ (only its ABI entry in
    abis.py and the call sites are).  Spec section 4.2: deriveChannelId must
    be order-independent, canonicalizing the pair, e.g. sorting the two
    addresses before hashing.  Addresses are uint160 values packed to 20
    bytes. -/
def getChannelId (keccak : List Nat → List Nat) (partyA partyB : Nat) :
    List Nat :=
  keccak (beBytes 20 (min partyA partyB) ++ beBytes 20 (max partyA partyB))

/-- Abi call payloads assembled by the SDK write operations verified here. -/
inductive CallData where
  | rateService (provider : Nat) (category : String) (rating : Int)
  | payCall (recipient : Nat) (amount : Nat) (paymentId : List Nat)
      (metadata : List Nat)
  | batchPay (recipients : List Nat) (amounts : List Nat)
      (paymentIds : List (List Nat)) (metadata : List (List Nat))
deriving DecidableEq

/-- Transaction dictionary built by _build_tx (client.py lines 169-177):
    from, nonce, gas, gasPrice, value, plus the contract call payload. -/
structure Tx where
  fromAddr : Nat
  nonce : Nat
  gas : Nat
  gasPrice : Nat
  value : Nat
  call : CallData
deriving DecidableEq

/-- Transaction receipt as consumed by _send_tx: only the status field is
    inspected. -/
structure Receipt where
  status : Nat

/-- Blockchain and account capabilities the client consumes: the transaction
    count and gas price queries of _build_tx, the account transaction signer,
    raw submission returning the transaction hash bytes, and the blocking
    receipt wait. -/
structure Env where
  selfAddress : Nat
  txCount : Nat
  gasPrice : Nat
  signTx : Tx → List Nat
  sendRaw : List Nat → List Nat
  receiptFor : List Nat → Receipt

/-- Embedding of SynapseClient._build_tx (client.py lines 169-177). -/
def build_tx (env : Env) (call : CallData) (value : Nat) : Tx :=
  { fromAddr := env.selfAddress, nonce := env.txCount, gas := 500000,
    gasPrice := env.gasPrice, value := value, call := call }

/-- Embedding of SynapseClient._send_tx (client.py lines 179-188): sign,
    submit raw, block on the receipt; when the receipt status is not 1 raise
    TransactionFailedError with the hex transaction hash in the message (the
    tx_hash attribute is left at its default None); otherwise return the hex
    transaction hash. -/
def send_tx (env : Env) (tx : Tx) : Except PyErr String :=
  (fun txHash =>
    if (env.receiptFor txHash).status ≠ 1 then
      .error (.transactionFailed ("Transaction failed: " ++ hexStr txHash) none)
    else .ok (hexStr txHash))
  (env.sendRaw (env.signTx tx))

/-- Embedding of SynapseClient.rate_service (client.py lines 537-558): the
    range check raises ValueError before any web3 interaction; in range, the
    rateService call is built and submitted.  The provider argument stands
    for the already checksummed address. -/
def rate_service (env : Env) (provider : Nat) (category : String)
    (rating : Int) : Except PyErr String :=
  if ¬ (1 ≤ rating ∧ rating ≤ 5) then
    .error (.valueError "Rating must be between 1 and 5")
  else send_tx env (build_tx env (.rateService provider category rating) 0)

/-- Result dictionary of SynapseClient.pay: tx_hash and the hex payment
    id. -/
structure PayResult where
  txHash : String
  paymentId : String
deriving DecidableEq

/-- Embedding of the payment id selection of SynapseClient.pay (client.py
    lines 286-287): keccak of the text pay-{int(time.time())} when the
    caller supplies none, the supplied 32-byte id unchanged otherwise.  The
    timestamp int(time.time()) is the parameter t. -/
def pay_payment_id (keccak : List Nat → List Nat)
    (paymentId : Option (List Nat)) (t : Nat) : List Nat :=
  match paymentId with
  | none => keccak (asciiBytes ("pay-" ++ toString t))
  | some p => p

/-- Embedding of SynapseClient.pay (client.py lines 267-301). -/
def pay (keccak : List Nat → List Nat) (env : Env) (recipient : Nat)
    (amount : Dec) (paymentId : Option (List Nat)) (metadata : List Nat)
    (t : Nat) : Except PyErr PayResult := do
  let pid := pay_payment_id keccak paymentId t
  let w ← to_wei amount
  let txHash ← send_tx env (build_tx env (.payCall recipient w pid metadata) 0)
  pure { txHash := txHash, paymentId := hexStr pid }

/-- One entry of the payments argument of batch_pay.  The code reads only
    the recipient and amount keys of each dictionary; a payment_id key a
    caller may include is never read (client.py lines 313-318). -/
structure BatchPayment where
  recipient : Nat
  amount : Dec
  paymentId : Option (List Nat)

/-- Embedding of the per-entry payment id generation of
    SynapseClient.batch_pay (client.py lines 315-318): entry i always gets
    keccak of the text batch-{int(time.time())}-{i}. -/
def batch_payment_ids (keccak : List Nat → List Nat) (n t : Nat) :
    List (List Nat) :=
  (List.range n).map
    (fun i => keccak (asciiBytes ("batch-" ++ toString t ++ "-" ++ toString i)))

/-- The transaction assembled by SynapseClient.batch_pay (client.py lines
    303-327) before submission: recipients, wire amounts, generated payment
    ids, empty metadata. -/
def batch_pay_tx (keccak : List Nat → List Nat) (env : Env)
    (payments : List BatchPayment) (t : Nat) : Except PyErr Tx := do
  let amounts ← payments.mapM (fun q => to_wei q.amount)
  pure (build_tx env
    (.batchPay (payments.map (fun q => q.recipient)) amounts
      (batch_payment_ids keccak payments.length t) []) 0)

/-- Embedding of SynapseClient.batch_pay: build the batchPay transaction and
    submit it, returning the hex transaction hash. -/
def batch_pay (keccak : List Nat → List Nat) (env : Env)
    (payments : List BatchPayment) (t : Nat) : Except PyErr String := do
  let tx ← batch_pay_tx keccak env payments t
  send_tx env tx

/-- Key of a Python dictionary built by the reflective reverse lookups in
    get_agent and get_service: the class attribute values are either small
    integers or the classmethod objects of the helper methods, which are
    hashable and never equal to any integer. -/
inductive PyKey where
  | intKey (n : Int)
  | methodKey (name : String)
deriving DecidableEq

/-- First-match association lookup with a default, the observable behavior
    of dict.get for the dictionaries below (all their keys are distinct, so
    insertion-order overwrite never fires). -/
def dictGet : List (PyKey × String) → PyKey → String → String
  | [], _, dflt => dflt
  | (k, v) :: rest, key, dflt => if k = key then v else dictGet rest key dflt

/-- Entries of the reverse dictionary built at call time in get_agent
    (client.py line 478) from Tier.__dict__: value to attribute name for
    every attribute whose name does not start with an underscore, in class
    body order (constants.py lines 6-39, including the classmethods get_name
    and get_discount). -/
def tierReflectItems : List (PyKey × String) :=
  [(.intKey 0, "UNVERIFIED"), (.intKey 1, "BRONZE"), (.intKey 2, "SILVER"),
   (.intKey 3, "GOLD"), (.intKey 4, "PLATINUM"), (.intKey 5, "DIAMOND"),
   (.methodKey "get_name", "get_name"),
   (.methodKey "get_discount", "get_discount")]

/-- Entries of the reverse dictionary built at call time in get_service
    (client.py line 615) from PricingModel.__dict__ (constants.py lines
    42-62). -/
def pricingReflectItems : List (PyKey × String) :=
  [(.intKey 0, "PER_REQUEST"), (.intKey 1, "PER_TOKEN"),
   (.intKey 2, "PER_SECOND"), (.intKey 3, "PER_BYTE"),
   (.intKey 4, "SUBSCRIPTION"), (.intKey 5, "CUSTOM"),
   (.methodKey "get_name", "get_name")]

namespace Tier

/-- Embedding of Tier.get_name (constants.py lines 15-26): the static value
    to name mapping with UNKNOWN default. -/
def get_name (tier : Int) : String :=
  if tier = 0 then "UNVERIFIED"
  else if tier = 1 then "BRONZE"
  else if tier = 2 then "SILVER"
  else if tier = 3 then "GOLD"
  else if tier = 4 then "PLATINUM"
  else if tier = 5 then "DIAMOND"
  else "UNKNOWN"

end Tier

namespace PricingModel

/-- Embedding of PricingModel.get_name (constants.py lines 51-62). -/
def get_name (model : Int) : String :=
  if model = 0 then "PER_REQUEST"
  else if model = 1 then "PER_TOKEN"
  else if model = 2 then "PER_SECOND"
  else if model = 3 then "PER_BYTE"
  else if model = 4 then "SUBSCRIPTION"
  else if model = 5 then "CUSTOM"
  else "UNKNOWN"

end PricingModel

/-- Environment for concrete instantiations: receipts always report success
    and every submission yields the transaction hash byte 171. -/
def envOk : Env :=
  { selfAddress := 0, txCount := 0, gasPrice := 0,
    signTx := fun _ => [], sendRaw := fun _ => [171],
    receiptFor := fun _ => { status := 1 } }

/-- Environment whose receipts always report failure status 0. -/
def envFail : Env :=
  { selfAddress := 0, txCount := 0, gasPrice := 0,
    signTx := fun _ => [], sendRaw := fun _ => [171],
    receiptFor := fun _ => { status := 0 } }

/-- Concrete transaction for closed instantiations. -/
def tx0 : Tx := build_tx envOk (.rateService 0 "x" 1) 0

/-- Concrete stand-in hash that prepends a zero byte, making a double
    application visibly different from a single one. -/
def consHash : List Nat → List Nat := fun bs => 0 :: bs

/-- Concrete stand-in hash with a fixed 32-byte output. -/
def zeroHash32 : List Nat → List Nat := fun _ => List.replicate 32 0

/-- Concrete stand-in hash with empty output. -/
def emptyHash : List Nat → List Nat := fun _ => []

/-- Value of a decimal string whose sign flag is cleared. -/
theorem Dec.value_of_neg_false {d : Dec} (h : d.neg = false) :
    d.value = (d.num : ℚ) / 10 ^ d.fracLen := by
  rw [Dec.value, h]
  simp

/-- Value of a decimal string whose sign flag is set. -/
theorem Dec.value_of_neg_true {d : Dec} (h : d.neg = true) :
    d.value = -((d.num : ℚ) / 10 ^ d.fracLen) := by
  rw [Dec.value, h]
  simp [neg_div]

/-- Any wire value produced by to_wei fits in a uint256: the eth_utils bound
    check rejects anything larger before the integer is returned. -/
theorem to_wei_le_max {d : Dec} {w : Nat} (h : to_wei d = Except.ok w) :
    w ≤ UINT256MAX := by
  unfold to_wei at h
  split at h
  · cases h; exact Nat.zero_le _
  · split at h
    · cases h
    · split at h
      · cases h
      · cases h
        rename_i hgt
        push_neg at hgt
        exact Nat.div_le_of_le_mul' (hgt.trans_eq (Nat.mul_comm _ _))

/-- A nonnegative-valued decimal with a nonzero numerator has a cleared sign
    flag. -/
theorem Dec.neg_eq_false_of_nonneg {d : Dec} (hnn : 0 ≤ d.value)
    (hnum : d.num ≠ 0) : d.neg = false := by
  by_contra hneg
  rw [Bool.not_eq_false] at hneg
  have hpos : (0 : ℚ) < (d.num : ℚ) / 10 ^ d.fracLen := by
    have : 0 < d.num := Nat.pos_of_ne_zero hnum
    positivity
  rw [Dec.value_of_neg_true hneg] at hnn
  linarith

end SynapseSdk

open SynapseSdk

/-- C5: the display amount 10.5 converts to the wire integer
    10500000000000000000 under _to_wei, and _from_wei maps that wire integer
    back to the exact decimal value 10.5. -/
theorem c5_scenario_10p5 :
    to_wei dec10p5 = Except.ok 10500000000000000000 ∧
    from_wei 10500000000000000000 = Except.ok dec10p5.value := by
  refine ⟨by rfl, ?_⟩
  have h1 : from_wei 10500000000000000000 =
      Except.ok ((10500000000000000000 : ℚ) / 10 ^ 18) := by rfl
  have h2 : dec10p5.value = (10500000000000000000 : ℚ) / 10 ^ 18 := by
    rw [Dec.value_of_neg_false (by rfl)]
    norm_num [Dec.num, Dec.fracLen, dec10p5, digitsToNat]
  rw [h1, h2]

/-- C3 (amended): for every decimal string with nonnegative value, at most 18
    fractional digits, and a scaled value within the uint256 range, _to_wei
    succeeds with the exactly scaled integer and _from_wei maps that integer
    back to the exact original decimal value. -/
theorem c3_roundtrip_within_uint256 (d : Dec) (hnn : 0 ≤ d.value)
    (hfrac : d.fracLen ≤ 18)
    (hrange : d.num * 10 ^ 18 ≤ UINT256MAX * 10 ^ d.fracLen) :
    to_wei d = Except.ok (d.num * 10 ^ (18 - d.fracLen)) ∧
    from_wei (d.num * 10 ^ (18 - d.fracLen)) = Except.ok d.value := by
  have hpowsub : (10 : ℕ) ^ (18 - d.fracLen) * 10 ^ d.fracLen = 10 ^ 18 := by
    rw [← pow_add, Nat.sub_add_cancel hfrac]
  by_cases hnum : d.num = 0
  · have hval : d.value = 0 := by
      simp [Dec.value, hnum]
    refine ⟨?_, ?_⟩
    · simp [to_wei, hnum]
    · simp [from_wei, hnum, hval]
  · have hneg : d.neg = false := Dec.neg_eq_false_of_nonneg hnn hnum
    have hdiv : d.num * 10 ^ 18 / 10 ^ d.fracLen = d.num * 10 ^ (18 - d.fracLen) := by
      rw [← hpowsub, ← Nat.mul_assoc]
      exact Nat.mul_div_cancel _ (pow_pos (by norm_num) d.fracLen)
    have hok : to_wei d = Except.ok (d.num * 10 ^ (18 - d.fracLen)) := by
      rw [to_wei, if_neg hnum, hneg, if_neg (Bool.false_ne_true),
        if_neg (Nat.not_lt.mpr hrange), hdiv]
    have hwle : d.num * 10 ^ (18 - d.fracLen) ≤ UINT256MAX := to_wei_le_max hok
    have hwne : d.num * 10 ^ (18 - d.fracLen) ≠ 0 := by
      have hp : (0 : ℕ) < 10 ^ (18 - d.fracLen) := pow_pos (by norm_num) _
      exact Nat.mul_ne_zero hnum (by omega)
    refine ⟨hok, ?_⟩
    rw [from_wei, if_neg hwne, if_neg (Nat.not_lt.mpr hwle)]
    congr 1
    rw [Dec.value_of_neg_false hneg]
    have hq : ((10 : ℚ) ^ (18 - d.fracLen)) * 10 ^ d.fracLen = 10 ^ 18 := by
      exact_mod_cast hpowsub
    push_cast
    rw [div_eq_div_iff (by positivity) (by positivity)]
    calc (d.num : ℚ) * 10 ^ (18 - d.fracLen) * 10 ^ d.fracLen
        = (d.num : ℚ) * (10 ^ (18 - d.fracLen) * 10 ^ d.fracLen) := by ring
      _ = (d.num : ℚ) * 10 ^ 18 := by rw [hq]

/-- C3 witness: the amended round-trip theorem instantiated at the decimal
    string 2.25. -/
theorem c3_roundtrip_within_uint256_witness :
    (0 ≤ dec2p25.value ∧ dec2p25.fracLen ≤ 18 ∧
      dec2p25.num * 10 ^ 18 ≤ UINT256MAX * 10 ^ dec2p25.fracLen) ∧
    (to_wei dec2p25 = Except.ok (dec2p25.num * 10 ^ (18 - dec2p25.fracLen)) ∧
      from_wei (dec2p25.num * 10 ^ (18 - dec2p25.fracLen)) =
        Except.ok dec2p25.value) :=
  ⟨⟨by rw [Dec.value_of_neg_false (by rfl)]; positivity, by decide, by decide⟩,
    c3_roundtrip_within_uint256 dec2p25
      (by rw [Dec.value_of_neg_false (by rfl)]; positivity)
      (by decide) (by decide)⟩

/-- C3 counterexample: the nonnegative decimal string with integer part 1
    followed by sixty zeros and no fractional digits scales past the uint256
    bound, so _to_wei raises ValueError and the round trip through _from_wei
    never yields the original value. -/
theorem c3_counterexample_uint256_overflow :
    (to_wei decHuge).bind from_wei =
      Except.error
        (.valueError "Resulting wei value must be between 1 and 2**256 - 1") := by
  rfl

/-- C4 (amended): _to_wei rejects every strictly negative decimal amount, but
    with the built-in ValueError of eth_utils (the SDK defines no
    PrecisionError or InvalidInputError class), and it does NOT reject amounts
    with more than 18 fractional digits: every nonnegative in-range amount is
    accepted and truncated toward zero at the wei boundary, silently dropping
    any sub-wei fraction. -/
theorem c4_to_wei_boundary (d : Dec) :
    (d.value < 0 →
      to_wei d = Except.error
        (.valueError "Resulting wei value must be between 1 and 2**256 - 1")) ∧
    (0 ≤ d.value → d.num * 10 ^ 18 ≤ UINT256MAX * 10 ^ d.fracLen →
      to_wei d = Except.ok (Int.toNat ⌊d.value * 10 ^ 18⌋)) := by
  constructor
  · intro hv
    have hnum : d.num ≠ 0 := by
      intro h0
      rw [Dec.value, h0] at hv
      simp at hv
    have hneg : d.neg = true := by
      by_contra hb
      rw [Bool.not_eq_true] at hb
      rw [Dec.value_of_neg_false hb] at hv
      have hge : (0 : ℚ) ≤ (d.num : ℚ) / 10 ^ d.fracLen := by positivity
      linarith
    rw [to_wei, if_neg hnum, hneg, if_pos rfl]
  · intro hnn hrange
    by_cases hnum : d.num = 0
    · have hval : d.value = 0 := by simp [Dec.value, hnum]
      rw [to_wei, if_pos hnum, hval]
      norm_num
    · have hneg : d.neg = false := Dec.neg_eq_false_of_nonneg hnn hnum
      rw [to_wei, if_neg hnum, hneg, if_neg (Bool.false_ne_true),
        if_neg (Nat.not_lt.mpr hrange)]
      congr 1
      have hval : d.value * 10 ^ 18 =
          ((d.num * 10 ^ 18 : ℕ) : ℚ) / ((10 ^ d.fracLen : ℕ) : ℚ) := by
        rw [Dec.value_of_neg_false hneg]
        push_cast
        ring
      rw [hval, Int.floor_toNat, Nat.floor_div_nat, Nat.floor_natCast]

/-- C4 witness: the amended boundary theorem applied to the negative amount
    -1 and to the nineteen-fractional-digit amount 0.0000000000000000005,
    which truncates to wire value 0. -/
theorem c4_to_wei_boundary_witness :
    (decNeg1.value < 0 ∧
      to_wei decNeg1 = Except.error
        (.valueError "Resulting wei value must be between 1 and 2**256 - 1")) ∧
    (0 ≤ decHalfWei.value ∧
      decHalfWei.num * 10 ^ 18 ≤ UINT256MAX * 10 ^ decHalfWei.fracLen ∧
      to_wei decHalfWei = Except.ok (Int.toNat ⌊decHalfWei.value * 10 ^ 18⌋)) :=
  by
  have hneg : decNeg1.value < 0 := by
    rw [Dec.value_of_neg_true (by rfl)]
    norm_num [decNeg1, Dec.num, Dec.fracLen, digitsToNat]
  have hnn : 0 ≤ decHalfWei.value := by
    rw [Dec.value_of_neg_false (by rfl)]
    positivity
  have hrange :
      decHalfWei.num * 10 ^ 18 ≤ UINT256MAX * 10 ^ decHalfWei.fracLen := by
    decide
  exact ⟨⟨hneg, (c4_to_wei_boundary decNeg1).1 hneg⟩,
    ⟨hnn, hrange, (c4_to_wei_boundary decHalfWei).2 hnn hrange⟩⟩

/-- C4 counterexample: the decimal string 0.0000000000000000005 has
    nineteen fractional digits, yet _to_wei raises nothing: it silently
    truncates the half-wei value to the wire integer 0. -/
theorem c4_counterexample_silent_truncation :
    to_wei decHalfWei = Except.ok 0 := by
  rfl

/-- Bind of a successful Except computation reduces to the continuation. -/
theorem except_bind_ok {ε α β : Type} (a : α) (f : α → Except ε β) :
    (Except.ok a : Except ε α) >>= f = f a := rfl

/-- Map over a successful Except computation. -/
theorem except_map_ok {ε α β : Type} (a : α) (f : α → β) :
    (Except.ok a : Except ε α).map f = Except.ok (f a) := rfl

/-- Pure of the Except monad is the ok constructor. -/
theorem except_pure {ε α : Type} (a : α) :
    (pure a : Except ε α) = Except.ok a := rfl

/-- Packing a uint256 value in range yields its 32 big-endian bytes. -/
theorem packValue_uint256_ok {n : Nat} (h : n < 2 ^ 256) :
    packValue (.uint256 n) = Except.ok (beBytes 32 n) := by
  simp only [packValue]
  rw [if_pos h]

/-- Packing an address value in range yields its 20 big-endian bytes. -/
theorem packValue_address_ok {n : Nat} (h : n < 2 ^ 160) :
    packValue (.address n) = Except.ok (beBytes 20 n) := by
  simp only [packValue]
  rw [if_pos h]

/-- Packing a 32-byte string yields the string itself. -/
theorem packValue_bytes32_ok {b : List Nat} (h : b.length = 32) :
    packValue (.bytes32 b) = Except.ok b := by
  simp only [packValue]
  rw [if_pos h]

/-- C1: sign_channel_state computes its message hash as a single keccak over
    the tight (bytes32, uint256, uint256, uint256) concatenation of the
    channel id, the two balances in wire form, and the nonce, and signs that
    hash over the EIP-191 personal-message digest: keccak of the 0x19 byte,
    the Ethereum Signed Message header, the length text 32, and the message
    hash. -/
theorem c1_sign_channel_state_digest (keccak signMessage : List Nat → List Nat)
    (hk : ∀ bs, (keccak bs).length = 32)
    (channelId : List Nat) (b1 b2 : Dec) (nonce w1 w2 : Nat)
    (hcid : channelId.length = 32)
    (h1 : to_wei b1 = Except.ok w1) (h2 : to_wei b2 = Except.ok w2)
    (hnonce : nonce < 2 ^ 256) :
    sign_channel_state keccak signMessage channelId b1 b2 nonce =
      Except.ok (signMessage (keccak
        (25 :: (asciiBytes "Ethereum Signed Message:\n" ++ asciiBytes "32" ++
          keccak (channelId ++ beBytes 32 w1 ++ beBytes 32 w2 ++
            beBytes 32 nonce))))) := by
  have hw1 : w1 < 2 ^ 256 := by
    have := to_wei_le_max h1
    have hmax : UINT256MAX < 2 ^ 256 := by
      unfold UINT256MAX
      exact Nat.sub_lt (by positivity) (by norm_num)
    omega
  have hw2 : w2 < 2 ^ 256 := by
    have := to_wei_le_max h2
    have hmax : UINT256MAX < 2 ^ 256 := by
      unfold UINT256MAX
      exact Nat.sub_lt (by positivity) (by norm_num)
    omega
  have hpack : encodePacked
      [SolValue.bytes32 channelId, .uint256 w1, .uint256 w2, .uint256 nonce] =
      Except.ok (channelId ++ beBytes 32 w1 ++ beBytes 32 w2 ++
        beBytes 32 nonce) := by
    simp [encodePacked, packValue_bytes32_ok hcid, packValue_uint256_ok hw1,
      packValue_uint256_ok hw2, packValue_uint256_ok hnonce, except_bind_ok,
      List.append_assoc]
  have hsk : solidityKeccak keccak
      [SolValue.bytes32 channelId, .uint256 w1, .uint256 w2, .uint256 nonce] =
      Except.ok (keccak (channelId ++ beBytes 32 w1 ++ beBytes 32 w2 ++
        beBytes 32 nonce)) := by
    rw [solidityKeccak, hpack]
    rfl
  have h32 : toString (32 : Nat) = "32" := rfl
  simp [sign_channel_state, h1, h2, hsk, except_bind_ok, eip191Digest, hk, h32]

/-- C1 witness: the digest theorem instantiated with the fixed-output hash
    zeroHash32, the trivial signer emptyHash, a zero channel id, balances
    10.5 and nonce 7. -/
theorem c1_sign_channel_state_digest_witness :
    ((∀ bs, (zeroHash32 bs).length = 32) ∧
      (List.replicate 32 (0 : Nat)).length = 32 ∧
      to_wei dec10p5 = Except.ok 10500000000000000000 ∧ (7 : Nat) < 2 ^ 256) ∧
    sign_channel_state zeroHash32 emptyHash (List.replicate 32 0) dec10p5
        dec10p5 7 =
      Except.ok (emptyHash (zeroHash32
        (25 :: (asciiBytes "Ethereum Signed Message:\n" ++ asciiBytes "32" ++
          zeroHash32 (List.replicate 32 0 ++ beBytes 32 10500000000000000000 ++
            beBytes 32 10500000000000000000 ++ beBytes 32 7))))) :=
  ⟨⟨fun bs => by simp [zeroHash32], by simp, by rfl, by norm_num⟩,
    c1_sign_channel_state_digest zeroHash32 emptyHash
      (fun bs => by simp [zeroHash32]) (List.replicate 32 0) dec10p5 dec10p5
      7 10500000000000000000 10500000000000000000 (by simp) (by rfl) (by rfl)
      (by norm_num)⟩

/-- C2 (amended): the escrow id computed by create_escrow is the keccak of
    the keccak of the tight (address, address, bytes32, uint256) packed
    concatenation of (initiator, recipient, payment id, deadline) — a double
    hash, not a single one — and the stream id computed by create_stream is
    likewise the double keccak over (address, address, uint256, uint256) of
    (initiator, recipient, start time, end time). -/
theorem c2_escrow_stream_id_double_hash (keccak : List Nat → List Nat)
    (sender recipient : Nat) (paymentId : List Nat)
    (deadline startTime endTime : Nat)
    (hs : sender < 2 ^ 160) (hr : recipient < 2 ^ 160)
    (hp : paymentId.length = 32) (hd : deadline < 2 ^ 256)
    (hst : startTime < 2 ^ 256) (het : endTime < 2 ^ 256) :
    escrow_id keccak sender recipient paymentId deadline =
      Except.ok (keccak (keccak (beBytes 20 sender ++ beBytes 20 recipient ++
        paymentId ++ beBytes 32 deadline))) ∧
    stream_id keccak sender recipient startTime endTime =
      Except.ok (keccak (keccak (beBytes 20 sender ++ beBytes 20 recipient ++
        beBytes 32 startTime ++ beBytes 32 endTime))) := by
  constructor
  · have hpack : encodePacked [SolValue.address sender, .address recipient,
        .bytes32 paymentId, .uint256 deadline] =
        Except.ok (beBytes 20 sender ++ beBytes 20 recipient ++ paymentId ++
          beBytes 32 deadline) := by
      simp [encodePacked, packValue_address_ok hs, packValue_address_ok hr,
        packValue_bytes32_ok hp, packValue_uint256_ok hd, except_bind_ok,
        List.append_assoc]
    simp [escrow_id, solidityKeccak, hpack, except_bind_ok, except_map_ok]
  · have hpack : encodePacked [SolValue.address sender, .address recipient,
        .uint256 startTime, .uint256 endTime] =
        Except.ok (beBytes 20 sender ++ beBytes 20 recipient ++
          beBytes 32 startTime ++ beBytes 32 endTime) := by
      simp [encodePacked, packValue_address_ok hs, packValue_address_ok hr,
        packValue_uint256_ok hst, packValue_uint256_ok het, except_bind_ok,
        List.append_assoc]
    simp [stream_id, solidityKeccak, hpack, except_bind_ok, except_map_ok]

/-- C2 witness: the double-hash theorem instantiated at addresses 1 and 2, a
    zero payment id, deadline 3, and stream window 4 to 5, with the hash
    zeroHash32. -/
theorem c2_escrow_stream_id_double_hash_witness :
    ((1 : Nat) < 2 ^ 160 ∧ (2 : Nat) < 2 ^ 160 ∧
      (List.replicate 32 (0 : Nat)).length = 32 ∧ (3 : Nat) < 2 ^ 256 ∧
      (4 : Nat) < 2 ^ 256 ∧ (5 : Nat) < 2 ^ 256) ∧
    (escrow_id zeroHash32 1 2 (List.replicate 32 0) 3 =
      Except.ok (zeroHash32 (zeroHash32 (beBytes 20 1 ++ beBytes 20 2 ++
        List.replicate 32 0 ++ beBytes 32 3))) ∧
    stream_id zeroHash32 1 2 4 5 =
      Except.ok (zeroHash32 (zeroHash32 (beBytes 20 1 ++ beBytes 20 2 ++
        beBytes 32 4 ++ beBytes 32 5)))) :=
  ⟨⟨by norm_num, by norm_num, by simp, by norm_num, by norm_num, by norm_num⟩,
    c2_escrow_stream_id_double_hash zeroHash32 1 2 (List.replicate 32 0) 3 4 5
      (by norm_num) (by norm_num) (by simp) (by norm_num) (by norm_num)
      (by norm_num)⟩

/-- C2 counterexample: with the length-extending stand-in hash consHash, the
    escrow id of concrete inputs (two applications of the hash) differs from
    the single hash of the tight concatenation, refuting the single-hash
    claim as a statement about an arbitrary hash function. -/
theorem c2_counterexample_not_single_hash :
    escrow_id consHash 0 0 (List.replicate 32 0) 0 ≠
      Except.ok (consHash (beBytes 20 0 ++ beBytes 20 0 ++
        List.replicate 32 0 ++ beBytes 32 0)) := by
  intro h
  have hL : escrow_id consHash 0 0 (List.replicate 32 0) 0 =
      Except.ok (0 :: 0 :: (beBytes 20 0 ++ beBytes 20 0 ++
        List.replicate 32 0 ++ beBytes 32 0)) := by rfl
  have hR : consHash (beBytes 20 0 ++ beBytes 20 0 ++ List.replicate 32 0 ++
      beBytes 32 0) = 0 :: (beBytes 20 0 ++ beBytes 20 0 ++
        List.replicate 32 0 ++ beBytes 32 0) := rfl
  rw [hL, hR] at h
  have h2 := Except.ok.inj h
  have h3 := (List.cons.inj h2).2
  exact List.cons_ne_self 0 _ h3

/-- C6: the spec-modelled channel id derivation is order-independent — both
    participants obtain the same 32-byte id whatever the argument order. -/
theorem c6_channel_id_order_independent (keccak : List Nat → List Nat)
    (partyA partyB : Nat) (_h : partyA ≠ partyB) :
    getChannelId keccak partyA partyB = getChannelId keccak partyB partyA := by
  unfold getChannelId
  rw [Nat.min_comm, Nat.max_comm]

/-- C6 witness: order independence at the concrete address pair 1, 2. -/
theorem c6_channel_id_order_independent_witness :
    (1 : Nat) ≠ 2 ∧
    getChannelId zeroHash32 1 2 = getChannelId zeroHash32 2 1 :=
  ⟨by decide, c6_channel_id_order_independent zeroHash32 1 2 (by decide)⟩

/-- C7: rate_service validates the rating against the closed range [1,5]
    before touching the chain: out of range it raises ValueError with the
    same result in every environment, hence without any network interaction;
    in range the validation passes and the rateService transaction is built
    and submitted. -/
theorem c7_rate_service_range (env : Env) (provider : Nat) (category : String)
    (rating : Int) :
    (¬ (1 ≤ rating ∧ rating ≤ 5) →
      rate_service env provider category rating =
        Except.error (.valueError "Rating must be between 1 and 5")) ∧
    ((1 ≤ rating ∧ rating ≤ 5) →
      rate_service env provider category rating =
        send_tx env (build_tx env (.rateService provider category rating) 0)) := by
  constructor
  · intro h
    rw [rate_service, if_pos h]
  · intro h
    rw [rate_service, if_neg (not_not_intro h)]

/-- C7 witness: rating 6 is rejected with ValueError while rating 3 passes
    validation and proceeds to submission. -/
theorem c7_rate_service_range_witness :
    (¬ (1 ≤ (6 : Int) ∧ (6 : Int) ≤ 5) ∧
      rate_service envOk 7 "inference" 6 =
        Except.error (.valueError "Rating must be between 1 and 5")) ∧
    ((1 ≤ (3 : Int) ∧ (3 : Int) ≤ 5) ∧
      rate_service envOk 7 "inference" 3 =
        send_tx envOk (build_tx envOk (.rateService 7 "inference" 3) 0)) :=
  ⟨⟨by decide, (c7_rate_service_range envOk 7 "inference" 6).1 (by decide)⟩,
    ⟨by decide, (c7_rate_service_range envOk 7 "inference" 3).2 (by decide)⟩⟩

/-- C8: _send_tx blocks on the receipt of the submitted transaction and
    returns the hex transaction hash exactly when the receipt status is 1;
    any other status makes it raise TransactionFailedError whose message
    carries the hex transaction hash (the structured tx_hash attribute stays
    at its default None). -/
theorem c8_send_tx_receipt_status (env : Env) (tx : Tx) :
    ((env.receiptFor (env.sendRaw (env.signTx tx))).status = 1 →
      send_tx env tx = Except.ok (hexStr (env.sendRaw (env.signTx tx)))) ∧
    ((env.receiptFor (env.sendRaw (env.signTx tx))).status ≠ 1 →
      send_tx env tx = Except.error (.transactionFailed
        ("Transaction failed: " ++ hexStr (env.sendRaw (env.signTx tx)))
        none)) := by
  constructor
  · intro h
    simp [send_tx, h]
  · intro h
    simp [send_tx, h]

/-- C8 witness: the receipt-status theorem applied to a success environment
    and to a failure environment at a concrete transaction. -/
theorem c8_send_tx_receipt_status_witness :
    ((envOk.receiptFor (envOk.sendRaw (envOk.signTx tx0))).status = 1 ∧
      send_tx envOk tx0 =
        Except.ok (hexStr (envOk.sendRaw (envOk.signTx tx0)))) ∧
    ((envFail.receiptFor (envFail.sendRaw (envFail.signTx tx0))).status ≠ 1 ∧
      send_tx envFail tx0 = Except.error (.transactionFailed
        ("Transaction failed: " ++ hexStr (envFail.sendRaw (envFail.signTx tx0)))
        none)) :=
  ⟨⟨by rfl, (c8_send_tx_receipt_status envOk tx0).1 (by rfl)⟩,
    ⟨by decide, (c8_send_tx_receipt_status envFail tx0).2 (by decide)⟩⟩

/-- C9 (amended): with no caller-supplied id, pay derives the default payment
    id as the keccak of the text pay-{timestamp} — from the timestamp alone,
    with no nonce; an id supplied to pay is used unchanged; batch_pay always
    derives the id of entry i as the keccak of batch-{timestamp}-{i}
    (timestamp plus entry index) and uses no caller-supplied ids. -/
theorem c9_payment_id_defaults (keccak : List Nat → List Nat) (env : Env)
    (recipient : Nat) (amount : Dec) (p : List Nat) (metadata : List Nat)
    (t w : Nat) (hw : to_wei amount = Except.ok w)
    (hst : ∀ h, (env.receiptFor h).status = 1) :
    (pay keccak env recipient amount none metadata t).map
        (fun r => r.paymentId) =
      Except.ok (hexStr (keccak (asciiBytes ("pay-" ++ toString t)))) ∧
    (pay keccak env recipient amount (some p) metadata t).map
        (fun r => r.paymentId) =
      Except.ok (hexStr p) ∧
    ∀ (payments : List BatchPayment) (amounts : List Nat),
      payments.mapM (fun q => to_wei q.amount) = Except.ok amounts →
      batch_pay_tx keccak env payments t = Except.ok (build_tx env
        (.batchPay (payments.map (fun q => q.recipient)) amounts
          ((List.range payments.length).map (fun i =>
            keccak (asciiBytes ("batch-" ++ toString t ++ "-" ++ toString i))))
          []) 0) := by
  have hsend : ∀ txx : Tx,
      send_tx env txx = Except.ok (hexStr (env.sendRaw (env.signTx txx))) := by
    intro txx
    simp [send_tx, hst]
  refine ⟨?_, ?_, ?_⟩
  · simp [pay, pay_payment_id, hw, hsend, except_bind_ok, except_map_ok]
  · simp [pay, pay_payment_id, hw, hsend, except_bind_ok, except_map_ok]
  · intro payments amounts hm
    simp only [batch_pay_tx, hm, except_bind_ok, batch_payment_ids,
      except_pure]

/-- C9 witness: the amended theorem instantiated with the hash zeroHash32,
    the success environment, amount 10.5, supplied id of 32 one-bytes and
    timestamp 5. -/
theorem c9_payment_id_defaults_witness :
    (to_wei dec10p5 = Except.ok 10500000000000000000 ∧
      (∀ h, (envOk.receiptFor h).status = 1)) ∧
    ((pay zeroHash32 envOk 7 dec10p5 none [] 5).map (fun r => r.paymentId) =
        Except.ok (hexStr (zeroHash32 (asciiBytes ("pay-" ++ toString (5 : Nat))))) ∧
      (pay zeroHash32 envOk 7 dec10p5 (some (List.replicate 32 1)) [] 5).map
          (fun r => r.paymentId) =
        Except.ok (hexStr (List.replicate 32 1)) ∧
      ∀ (payments : List BatchPayment) (amounts : List Nat),
        payments.mapM (fun q => to_wei q.amount) = Except.ok amounts →
        batch_pay_tx zeroHash32 envOk payments 5 = Except.ok (build_tx envOk
          (.batchPay (payments.map (fun q => q.recipient)) amounts
            ((List.range payments.length).map (fun i =>
              zeroHash32 (asciiBytes ("batch-" ++ toString (5 : Nat) ++ "-" ++
                toString i)))) []) 0)) :=
  ⟨⟨by rfl, fun h => rfl⟩,
    c9_payment_id_defaults zeroHash32 envOk 7 dec10p5 (List.replicate 32 1)
      [] 5 10500000000000000000 (by rfl) (fun h => rfl)⟩

/-- C9 counterexample: a batch_pay entry carrying a caller-supplied
    payment_id of the byte string 1 is ignored — the assembled batchPay
    transaction contains the generated id (the empty output of emptyHash),
    not the supplied value, so the supplied id is not used unchanged. -/
theorem c9_counterexample_batch_ignores_supplied_id :
    batch_pay_tx emptyHash envOk
        [{ recipient := 7, amount := dec10p5, paymentId := some [1] }] 0 =
      Except.ok (build_tx envOk
        (.batchPay [7] [10500000000000000000] [[]] []) 0) ∧
    ([[]] : List (List Nat)) ≠ [[1]] :=
  ⟨by rfl, by decide⟩

/-- C10: for every integer value, the reflective reverse-lookup dictionaries
    built at call time in get_agent and get_service agree with the static
    mappings Tier.get_name and PricingModel.get_name, including the UNKNOWN
    default (the classmethod keys swept up by the reflection never match an
    integer). -/
theorem c10_reflective_lookup_matches_get_name (v : Int) :
    dictGet tierReflectItems (.intKey v) "UNKNOWN" = Tier.get_name v ∧
    dictGet pricingReflectItems (.intKey v) "UNKNOWN" =
      PricingModel.get_name v := by
  by_cases h0 : v = 0
  · subst h0; exact ⟨rfl, rfl⟩
  by_cases h1 : v = 1
  · subst h1; exact ⟨rfl, rfl⟩
  by_cases h2 : v = 2
  · subst h2; exact ⟨rfl, rfl⟩
  by_cases h3 : v = 3
  · subst h3; exact ⟨rfl, rfl⟩
  by_cases h4 : v = 4
  · subst h4; exact ⟨rfl, rfl⟩
  by_cases h5 : v = 5
  · subst h5; exact ⟨rfl, rfl⟩
  refine ⟨?_, ?_⟩ <;>
    simp [dictGet, tierReflectItems, pricingReflectItems, Tier.get_name,
      PricingModel.get_name, Ne.symm h0, Ne.symm h1, Ne.symm h2, Ne.symm h3,
      Ne.symm h4, Ne.symm h5, h0, h1, h2, h3, h4, h5]
